import Mathlib

/-!
Shallow embedding of `src/vulnerable_endpoints.py`: a small FastAPI app with
three endpoints over two in-memory stores (`db_users`, `db_documents`).

The Python dictionaries become functions `Int → Option _`; each endpoint
becomes a pure function from the ambient state (both stores) and the
authenticated `current_user` to an outcome, paired with the resulting state
where the endpoint mutates the stores.  HTTPException outcomes (404, 403)
become constructors of the outcome types.  The Pydantic parsing of the
`UserUpdate` payload (which silently drops unknown JSON fields) is embedded
as `parseUserUpdate` over an association list of field names and values.
-/

namespace VulnerableEndpoints

/-- Mirrors the Pydantic model `User` (user_id, username, is_admin). -/
structure User where
  user_id : Int
  username : String
  is_admin : Bool := false
deriving DecidableEq, Repr

/-- Mirrors the Pydantic model `Document` (doc_id, owner_id, content, is_public). -/
structure Document where
  doc_id : Int
  owner_id : Int
  content : String
  is_public : Bool := false
deriving DecidableEq, Repr

/-- Mirrors the Pydantic model `UserUpdate`: both fields optional, defaulting
to `None`. -/
structure UserUpdate where
  username : Option String := none
  is_admin : Option Bool := none
deriving DecidableEq, Repr

/-- The ambient mutable state of the process: the two module-level
dictionaries `db_documents` and `db_users`. -/
structure AppState where
  db_documents : Int → Option Document
  db_users : Int → Option User

/-- Outcome of `GET /api/documents/{doc_id}`: either HTTP 404 or the document
returned as the response body. -/
inductive GetResult where
  | notFound
  | ok (d : Document)
deriving DecidableEq, Repr

/-- Outcome of `DELETE /api/documents/{doc_id}`: HTTP 404, HTTP 403, or the
success body naming the deleted id. -/
inductive DeleteResult where
  | notFound
  | forbidden
  | success (deleted_id : Int)
deriving DecidableEq, Repr

/-- Outcome of `PUT /api/users/me`: the updated user record, or the server
error raised when `db_users.get` returns `None` and the code dereferences it. -/
inductive UpdateResult where
  | error
  | ok (u : User)
deriving DecidableEq, Repr

/-- The initial documents dictionary `db_documents` of the module. -/
def doc101 : Document := { doc_id := 101, owner_id := 1, content := "Alice's private diary", is_public := false }

def doc102 : Document := { doc_id := 102, owner_id := 2, content := "Bob's secret recipe", is_public := false }

def doc103 : Document := { doc_id := 103, owner_id := 99, content := "Server master passwords", is_public := false }

def db_documents0 : Int → Option Document := fun k =>
  if k = 101 then some doc101
  else if k = 102 then some doc102
  else if k = 103 then some doc103
  else none

/-- The initial users dictionary `db_users` of the module. -/
def alice0 : User := { user_id := 1, username := "alice", is_admin := false }

def bob0 : User := { user_id := 2, username := "bob", is_admin := false }

def sysadmin0 : User := { user_id := 99, username := "sysadmin", is_admin := true }

def db_users0 : Int → Option User := fun k =>
  if k = 1 then some alice0
  else if k = 2 then some bob0
  else if k = 99 then some sysadmin0
  else none

/-- The initial process state. -/
def st0 : AppState := { db_documents := db_documents0, db_users := db_users0 }

/-- Mirrors `get_current_user`: the stub always returns `db_users[1]`. -/
def get_current_user (st : AppState) : Option User := st.db_users 1

/-- Mirrors `get_document` (lines 52-63).  The document is looked up; a
missing document raises 404; otherwise the document is returned with NO
authorization check (the commented-out check is absent from the code). -/
def get_document (st : AppState) (current_user : User) (doc_id : Int) : GetResult :=
  match st.db_documents doc_id with
  | none => GetResult.notFound
  | some document => GetResult.ok document

/-- Mirrors `update_profile` (lines 75-88).  The record fetched from
`db_users` is mutated in place (the dictionary entry at the subject's key
aliases the object), then re-stored at key `user.user_id`. -/
def update_profile (st : AppState) (current_user : User) (user_update : UserUpdate) :
    UpdateResult × AppState :=
  match st.db_users current_user.user_id with
  | none => (UpdateResult.error, st)
  | some user =>
    let user1 : User :=
      match user_update.username with
      | none => user
      | some v => { user with username := v }
    let user2 : User :=
      match user_update.is_admin with
      | none => user1
      | some b => { user1 with is_admin := b }
    let dbU1 : Int → Option User :=
      fun k => if k = current_user.user_id then some user2 else st.db_users k
    let dbU2 : Int → Option User :=
      fun k => if k = user2.user_id then some user2 else dbU1 k
    (UpdateResult.ok user2, { st with db_users := dbU2 })

/-- Mirrors `delete_document_secure` (lines 92-103): 404 when the document is
missing, 403 when the subject is neither the owner nor an admin, otherwise
the document is deleted and a success body returned. -/
def delete_document_secure (st : AppState) (current_user : User) (doc_id : Int) :
    DeleteResult × AppState :=
  match st.db_documents doc_id with
  | none => (DeleteResult.notFound, st)
  | some document =>
    if document.owner_id ≠ current_user.user_id ∧ current_user.is_admin = false then
      (DeleteResult.forbidden, st)
    else
      (DeleteResult.success doc_id,
        { st with db_documents := fun k => if k = doc_id then none else st.db_documents k })

lemma get_document_none (st : AppState) (cu : User) (did : Int)
    (h : st.db_documents did = none) :
    get_document st cu did = GetResult.notFound := by
  unfold get_document
  rw [h]

lemma get_document_some (st : AppState) (cu : User) (did : Int) (d : Document)
    (h : st.db_documents did = some d) :
    get_document st cu did = GetResult.ok d := by
  unfold get_document
  rw [h]

lemma delete_none (st : AppState) (cu : User) (did : Int)
    (h : st.db_documents did = none) :
    delete_document_secure st cu did = (DeleteResult.notFound, st) := by
  unfold delete_document_secure
  rw [h]

lemma delete_some (st : AppState) (cu : User) (did : Int) (d : Document)
    (h : st.db_documents did = some d) :
    delete_document_secure st cu did =
      if d.owner_id ≠ cu.user_id ∧ cu.is_admin = false then (DeleteResult.forbidden, st)
      else (DeleteResult.success did,
        { st with db_documents := fun k => if k = did then none else st.db_documents k }) := by
  unfold delete_document_secure
  rw [h]

/-- A JSON-ish value for fields of a request payload. -/
inductive Value where
  | str (s : String)
  | bool (b : Bool)
  | int (n : Int)
deriving DecidableEq, Repr

/-- First value bound to a field name in a payload, if any. -/
def lookupField (p : List (String × Value)) (k : String) : Option Value :=
  (p.find? (fun kv => kv.fst == k)).map Prod.snd

def asStr : Value → Option String
  | Value.str s => some s
  | _ => none

def asBool : Value → Option Bool
  | Value.bool b => some b
  | _ => none

/-- Validate an optional field: absent is fine (`none` inside), present must
coerce, otherwise the whole parse fails (Pydantic ValidationError). -/
def parseOptField {α : Type} (coe : Value → Option α) : Option Value → Option (Option α)
  | none => some none
  | some v => (coe v).map some

/-- Mirrors Pydantic construction of `UserUpdate` from a JSON body: the two
declared fields are read by name; every other key of the payload is ignored
(Pydantic's default ignores extra fields). -/
def parseUserUpdate (p : List (String × Value)) : Option UserUpdate :=
  match parseOptField asStr (lookupField p "username"),
        parseOptField asBool (lookupField p "is_admin") with
  | some u, some a => some { username := u, is_admin := a }
  | _, _ => none

/-- Helper: the updates of `update_profile` never touch the `user_id` field.
The record stored back is the fetched record with at most `username` and
`is_admin` replaced. -/
def applyUpdate (user : User) (user_update : UserUpdate) : User :=
  let user1 : User :=
    match user_update.username with
    | none => user
    | some v => { user with username := v }
  match user_update.is_admin with
  | none => user1
  | some b => { user1 with is_admin := b }

lemma update_profile_eq (st : AppState) (cu : User) (upd : UserUpdate) (user : User)
    (h : st.db_users cu.user_id = some user) :
    update_profile st cu upd =
      (UpdateResult.ok (applyUpdate user upd),
       { st with db_users := fun k =>
          if k = (applyUpdate user upd).user_id then some (applyUpdate user upd)
          else if k = cu.user_id then some (applyUpdate user upd)
          else st.db_users k }) := by
  unfold update_profile applyUpdate
  rw [h]

lemma applyUpdate_user_id (user : User) (upd : UserUpdate) :
    (applyUpdate user upd).user_id = user.user_id := by
  unfold applyUpdate
  cases upd.username <;> cases upd.is_admin <;> rfl

lemma applyUpdate_username_none (user : User) (upd : UserUpdate)
    (h : upd.username = none) : (applyUpdate user upd).username = user.username := by
  unfold applyUpdate
  rw [h]
  cases upd.is_admin <;> rfl

lemma applyUpdate_is_admin_none (user : User) (upd : UserUpdate)
    (h : upd.is_admin = none) : (applyUpdate user upd).is_admin = user.is_admin := by
  unfold applyUpdate
  rw [h]
  cases upd.username <;> rfl

lemma update_profile_none (st : AppState) (cu : User) (upd : UserUpdate)
    (h : st.db_users cu.user_id = none) :
    update_profile st cu upd = (UpdateResult.error, st) := by
  unfold update_profile
  rw [h]

lemma update_profile_stored (st : AppState) (cu : User) (upd : UserUpdate) (user : User)
    (h : st.db_users cu.user_id = some user) :
    (update_profile st cu upd).2.db_users cu.user_id = some (applyUpdate user upd) := by
  rw [update_profile_eq st cu upd user h]
  dsimp only
  by_cases hx : cu.user_id = (applyUpdate user upd).user_id
  · rw [if_pos hx]
  · rw [if_neg hx, if_pos rfl]

/-- Claim C1: the spec requires the Read decision to be Allow iff the
resource is public, or the subject owns it, or the subject is privileged,
and in every other case Deny with the content never returned — in particular
non-privileged subject 1 must be denied the non-public document 103 owned by
subject 99.  The code performs no such check: at exactly that input,
`get_document` returns the full document content. -/
theorem get_document_returns_content_to_non_owner :
    alice0.user_id = 1 ∧ alice0.is_admin = false ∧
    st0.db_documents 103 = some doc103 ∧
    doc103.owner_id = 99 ∧ doc103.is_public = false ∧
    get_document st0 alice0 103 = GetResult.ok doc103 := by
  refine ⟨rfl, rfl, by decide, rfl, rfl, by decide⟩

/-- Claim C2: the spec requires that a non-privileged subject's stored
`is_admin` stays false no matter what the payload contains.  The code blindly
applies the payload's `is_admin`: subject alice (is_admin = false) sending
`{username: "mallory", is_admin: true}` ends with `is_admin = true` stored. -/
theorem update_profile_escalates_privilege :
    alice0.is_admin = false ∧
    (update_profile st0 alice0 { username := some "mallory", is_admin := some true }).1 =
      UpdateResult.ok { user_id := 1, username := "mallory", is_admin := true } ∧
    (update_profile st0 alice0 { username := some "mallory", is_admin := some true }).2.db_users 1 =
      some { user_id := 1, username := "mallory", is_admin := true } := by
  refine ⟨rfl, by decide, by decide⟩

/-- Claim C3: the Delete decision denies whenever the subject is neither the
owner nor privileged — the resource being public never authorizes Delete
(the quantification over `d` covers `d.is_public = true`) — and allows the
owner and any privileged subject. -/
theorem delete_decision_ownership (st : AppState) (cu : User) (did : Int) (d : Document)
    (h : st.db_documents did = some d) :
    (d.owner_id ≠ cu.user_id ∧ cu.is_admin = false →
      (delete_document_secure st cu did).1 = DeleteResult.forbidden) ∧
    (d.owner_id = cu.user_id ∨ cu.is_admin = true →
      (delete_document_secure st cu did).1 = DeleteResult.success did) := by
  rw [delete_some st cu did d h]
  constructor
  · intro hc
    rw [if_pos hc]
  · intro hc
    have hn : ¬ (d.owner_id ≠ cu.user_id ∧ cu.is_admin = false) := by
      rcases hc with h1 | h1
      · exact fun hx => hx.1 h1
      · exact fun hx => absurd hx.2 (by rw [h1]; decide)
    rw [if_neg hn]

/-- Witness for C3: alice (id 1, not admin) is forbidden to delete document
103 (owner 99, public or not), while sysadmin (admin) may delete document
101 it does not own. -/
theorem delete_decision_ownership_wit :
    (delete_document_secure st0 alice0 103).1 = DeleteResult.forbidden ∧
    (delete_document_secure st0 sysadmin0 101).1 = DeleteResult.success 101 := by
  constructor
  · exact (delete_decision_ownership st0 alice0 103 doc103 (by decide)).1 (by decide)
  · exact (delete_decision_ownership st0 sysadmin0 101 doc101 (by decide)).2 (by decide)

/-- Claim C5: for a document id absent from the store, both the read and the
delete endpoint return NotFound (404), never Deny (403); the delete endpoint
returns forbidden only when a document with that id exists. -/
theorem missing_document_is_not_found (st : AppState) (cu : User) (did : Int) :
    (st.db_documents did = none →
      get_document st cu did = GetResult.notFound ∧
      (delete_document_secure st cu did).1 = DeleteResult.notFound) ∧
    ((delete_document_secure st cu did).1 = DeleteResult.forbidden →
      ∃ d, st.db_documents did = some d) := by
  constructor
  · intro h
    exact ⟨get_document_none st cu did h, by rw [delete_none st cu did h]⟩
  · intro h
    cases hd : st.db_documents did with
    | none =>
      rw [delete_none st cu did hd] at h
      simp at h
    | some d => exact ⟨d, rfl⟩

/-- Witness for C5: id 200 is absent from the initial store, and both
endpoints answer 404 for it; the forbidden answer for document 103 proves a
document exists at 103. -/
theorem missing_document_is_not_found_wit :
    get_document st0 alice0 200 = GetResult.notFound ∧
    (delete_document_secure st0 alice0 200).1 = DeleteResult.notFound ∧
    ∃ d, st0.db_documents 103 = some d := by
  refine ⟨((missing_document_is_not_found st0 alice0 200).1 (by decide)).1,
          ((missing_document_is_not_found st0 alice0 200).1 (by decide)).2,
          (missing_document_is_not_found st0 alice0 103).2 (by decide)⟩

/-- Claim C6: when the delete endpoint ends in NotFound or Deny, the whole
state — document store and user store alike — is exactly what it was before
the request. -/
theorem delete_error_leaves_state_unchanged (st : AppState) (cu : User) (did : Int)
    (h : (delete_document_secure st cu did).1 = DeleteResult.notFound ∨
         (delete_document_secure st cu did).1 = DeleteResult.forbidden) :
    (delete_document_secure st cu did).2 = st := by
  cases hd : st.db_documents did with
  | none => rw [delete_none st cu did hd]
  | some d =>
    rw [delete_some st cu did d hd] at h ⊢
    by_cases hc : d.owner_id ≠ cu.user_id ∧ cu.is_admin = false
    · rw [if_pos hc]
    · rw [if_neg hc] at h
      rcases h with h | h <;> simp at h

/-- Witness for C6: alice's forbidden attempt to delete document 103 leaves
the state untouched. -/
theorem delete_error_leaves_state_unchanged_wit :
    (delete_document_secure st0 alice0 103).2 = st0 :=
  delete_error_leaves_state_unchanged st0 alice0 103 (Or.inr (by decide))

/-- Claim C8: the authorization decisions are deterministic functions of the
subject, the resolved resource, and the action, with no hidden state: two
evaluations over states that agree on the requested document id — in
particular two evaluations over the same state — yield identical verdicts. -/
theorem decisions_deterministic (s1 s2 : AppState) (cu : User) (did : Int)
    (h : s1.db_documents did = s2.db_documents did) :
    get_document s1 cu did = get_document s2 cu did ∧
    (delete_document_secure s1 cu did).1 = (delete_document_secure s2 cu did).1 := by
  cases hd : s2.db_documents did with
  | none =>
    rw [get_document_none s1 cu did (h.trans hd), get_document_none s2 cu did hd,
        delete_none s1 cu did (h.trans hd), delete_none s2 cu did hd]
    exact ⟨rfl, rfl⟩
  | some d =>
    rw [get_document_some s1 cu did d (h.trans hd), get_document_some s2 cu did d hd,
        delete_some s1 cu did d (h.trans hd), delete_some s2 cu did d hd]
    refine ⟨rfl, ?_⟩
    by_cases hc : d.owner_id ≠ cu.user_id ∧ cu.is_admin = false
    · rw [if_pos hc, if_pos hc]
    · rw [if_neg hc, if_neg hc]

/-- Witness for C8: a state with an extra document 200 agrees with the
initial state at id 103, and both decisions coincide there. -/
theorem decisions_deterministic_wit :
    get_document st0 alice0 103 =
      get_document { st0 with db_documents := fun k => if k = 200 then some doc101 else st0.db_documents k } alice0 103 ∧
    (delete_document_secure st0 alice0 103).1 =
      (delete_document_secure { st0 with db_documents := fun k => if k = 200 then some doc101 else st0.db_documents k } alice0 103).1 :=
  decisions_deterministic st0
    { st0 with db_documents := fun k => if k = 200 then some doc101 else st0.db_documents k }
    alice0 103 (by decide)

/-- Claim C7: a payload carrying only `username` makes the stored record's
username the proposed value and changes nothing else — `user_id` and
`is_admin` of the stored record stay what they were. -/
theorem username_only_update (st : AppState) (cu : User) (v : String) (user : User)
    (h : st.db_users cu.user_id = some user) :
    (update_profile st cu { username := some v }).1 =
      UpdateResult.ok { user with username := v } ∧
    (update_profile st cu { username := some v }).2.db_users cu.user_id =
      some { user with username := v } ∧
    ({ user with username := v } : User).user_id = user.user_id ∧
    ({ user with username := v } : User).is_admin = user.is_admin := by
  refine ⟨?_, update_profile_stored st cu { username := some v } user h, rfl, rfl⟩
  rw [update_profile_eq st cu { username := some v } user h]
  rfl

/-- Witness for C7: alice renames herself to "carol"; the stored record keeps
id 1 and is_admin false. -/
theorem username_only_update_wit :
    (update_profile st0 alice0 { username := some "carol" }).1 =
      UpdateResult.ok { user_id := 1, username := "carol", is_admin := false } ∧
    (update_profile st0 alice0 { username := some "carol" }).2.db_users 1 =
      some { user_id := 1, username := "carol", is_admin := false } := by
  have h := username_only_update st0 alice0 "carol" alice0 (by decide)
  exact ⟨h.1, h.2.1⟩

/-- Claim C9: for any profile-update request against a store whose record at
the subject's key carries the subject's own id (true of every reachable
store), every user-store entry other than the subject's own is unchanged,
and the document store is unchanged entirely. -/
theorem update_profile_frame (st : AppState) (cu : User) (upd : UserUpdate) (k : Int)
    (hwf : ∀ u, st.db_users cu.user_id = some u → u.user_id = cu.user_id)
    (hk : k ≠ cu.user_id) :
    (update_profile st cu upd).2.db_users k = st.db_users k ∧
    (update_profile st cu upd).2.db_documents = st.db_documents := by
  cases hu : st.db_users cu.user_id with
  | none => rw [update_profile_none st cu upd hu]; exact ⟨rfl, rfl⟩
  | some user =>
    rw [update_profile_eq st cu upd user hu]
    have hid : (applyUpdate user upd).user_id = cu.user_id :=
      (applyUpdate_user_id user upd).trans (hwf user hu)
    refine ⟨?_, rfl⟩
    dsimp only
    rw [hid, if_neg hk, if_neg hk]

/-- Witness for C9: alice's malicious update does not touch bob's record nor
the documents. -/
theorem update_profile_frame_wit :
    (update_profile st0 alice0 { username := some "mallory", is_admin := some true }).2.db_users 2 =
      st0.db_users 2 ∧
    (update_profile st0 alice0 { username := some "mallory", is_admin := some true }).2.db_documents =
      st0.db_documents :=
  update_profile_frame st0 alice0 { username := some "mallory", is_admin := some true } 2
    (fun u hu => by
      have : u = alice0 := by
        have h1 : some u = some alice0 := by rw [← hu]; decide
        exact Option.some.inj h1
      rw [this])
    (by decide)

/-- Claim C10: update semantics are partial — a payload field that is absent
(None) leaves the corresponding stored field unchanged: omitting `username`
keeps the stored username, omitting `is_admin` keeps the stored is_admin,
and `user_id` is never changed at all. -/
theorem absent_fields_unchanged (st : AppState) (cu : User) (upd : UserUpdate) (user : User)
    (h : st.db_users cu.user_id = some user) :
    ∃ u2 : User,
      (update_profile st cu upd).2.db_users cu.user_id = some u2 ∧
      u2.user_id = user.user_id ∧
      (upd.username = none → u2.username = user.username) ∧
      (upd.is_admin = none → u2.is_admin = user.is_admin) := by
  refine ⟨applyUpdate user upd, update_profile_stored st cu upd user h,
    applyUpdate_user_id user upd,
    fun hn => applyUpdate_username_none user upd hn,
    fun hn => applyUpdate_is_admin_none user upd hn⟩

/-- Witness for C10: alice sends an empty payload; her stored record keeps
its id, username and is_admin. -/
theorem absent_fields_unchanged_wit :
    ∃ u2 : User,
      (update_profile st0 alice0 {}).2.db_users alice0.user_id = some u2 ∧
      u2.user_id = alice0.user_id ∧
      (({} : UserUpdate).username = none → u2.username = alice0.username) ∧
      (({} : UserUpdate).is_admin = none → u2.is_admin = alice0.is_admin) :=
  absent_fields_unchanged st0 alice0 {} alice0 (by decide)

/-- The declared writable-field set of the `UserUpdate` payload model: the
field names Pydantic will bind; everything else in the body is ignored. -/
def knownField (kv : String × Value) : Bool :=
  kv.fst == "username" || kv.fst == "is_admin"

lemma lookupField_filter_known (p : List (String × Value)) (k : String)
    (hk : (k == "username" || k == "is_admin") = true) :
    lookupField (p.filter knownField) k = lookupField p k := by
  induction p with
  | nil => rfl
  | cons a t ih =>
    by_cases ha : (a.fst == k) = true
    · have haf : a.fst = k := eq_of_beq ha
      have hkeep : knownField a = true := by unfold knownField; rw [haf]; exact hk
      simp [lookupField, List.filter_cons, List.find?_cons, hkeep, ha]
    · by_cases hkeep : knownField a = true
      · simp only [lookupField, List.filter_cons, List.find?_cons, hkeep, ha,
          if_true, if_false, Bool.false_eq_true] at ih ⊢
        simpa [ha] using ih
      · simp only [lookupField, List.filter_cons, List.find?_cons, hkeep, ha,
          if_true, if_false, Bool.false_eq_true] at ih ⊢
        simpa [ha] using ih

/-- Claim C4: payload fields outside the declared writable-field set are
silently dropped and never an error — parsing a payload is the same as
parsing only its known-field entries (an allow-list, nothing unknown passes
through) — and a payload of `username` plus one unknown field parses to a
username-only update, which applied to stored state changes only the
username. -/
theorem unknown_fields_dropped :
    (∀ p : List (String × Value),
      parseUserUpdate (p.filter knownField) = parseUserUpdate p) ∧
    (∀ (x k : String) (v : Value) (st : AppState) (cu : User) (user : User),
      k ≠ "username" → k ≠ "is_admin" →
      st.db_users cu.user_id = some user →
      parseUserUpdate [("username", Value.str x), (k, v)] =
        some { username := some x, is_admin := none } ∧
      (update_profile st cu { username := some x, is_admin := none }).2.db_users cu.user_id =
        some { user with username := x }) := by
  constructor
  · intro p
    unfold parseUserUpdate
    rw [lookupField_filter_known p "username" (by decide),
        lookupField_filter_known p "is_admin" (by decide)]
  · intro x k v st cu user hk1 hk2 h
    constructor
    · have hkb : (k == "is_admin") = false := beq_eq_false_iff_ne.mpr hk2
      simp [parseUserUpdate, lookupField, List.find?_cons, hkb, parseOptField, asStr]
    · have happ : applyUpdate user { username := some x, is_admin := none } =
          { user with username := x } := rfl
      rw [← happ]
      exact update_profile_stored st cu { username := some x, is_admin := none } user h

/-- Witness for C4: the payload with username "x" and an unknown field
"notAField" parses to a username-only update, and applying it to alice's
record changes only her username. -/
theorem unknown_fields_dropped_wit :
    parseUserUpdate [("username", Value.str "x"), ("notAField", Value.str "y")] =
      some { username := some "x", is_admin := none } ∧
    (update_profile st0 alice0 { username := some "x", is_admin := none }).2.db_users alice0.user_id =
      some { user_id := 1, username := "x", is_admin := false } := by
  have h := unknown_fields_dropped.2 "x" "notAField" (Value.str "y") st0 alice0 alice0
    (by decide) (by decide) (by decide)
  exact ⟨h.1, h.2⟩

end VulnerableEndpoints
